import Mathlib

/-!
# Verification of the rust-server benchmark HTTP service

Shallow embedding of `src/rust-server-vs-goserver/rust-server/src/main.rs`:
a minimal hyper-based HTTP server with three handlers (`hash_handler`,
`health_handler`, `not_found`) dispatched by exact request path in
`handle_request`.

The hash handler reads the clock twice (nanoseconds for the hash seed,
milliseconds for the response timestamp), computes a 100-fold chained
SHA-256 digest of the string `input-<nanos>`, and serializes a JSON
response.  SHA-256 (the `sha2` crate's `Sha256`) is embedded as an
executable implementation of FIPS 180-4 over `Nat` words reduced mod
`2 ^ 32`, validated below against the standard `"abc"` test vector.

Rust machine integers are modelled as `Nat` (`u128` values such as
`as_nanos()` / `as_millis()` readings never approach `2 ^ 128` for
physically realizable times, so no wrap-around is modelled); the
possibly-pre-epoch `SystemTime` reading is an `Int`, and
`SystemTime::duration_since(UNIX_EPOCH)` returns `Option` (`none` is the
`Err` case, whose `unwrap` panics).
-/

set_option maxRecDepth 100000

namespace RustServer

/-! ## SHA-256 primitives (FIPS 180-4), words as `Nat` mod `2 ^ 32` -/

/-- Reduce to a 32-bit word. -/
def w32 (x : Nat) : Nat := x % 4294967296

/-- 32-bit right rotation of a word `x < 2 ^ 32`. -/
def rotr (n x : Nat) : Nat := w32 ((x >>> n) ||| (x <<< (32 - n)))

/-- SHA-256 choice function `Ch(x,y,z)`; bitwise not is xor with the all-ones word. -/
def chFun (x y z : Nat) : Nat := (x &&& y) ^^^ ((x ^^^ 4294967295) &&& z)

/-- SHA-256 majority function `Maj(x,y,z)`. -/
def majFun (x y z : Nat) : Nat := (x &&& y) ^^^ (x &&& z) ^^^ (y &&& z)

/-- SHA-256 `Σ₀`. -/
def bigSigma0 (x : Nat) : Nat := rotr 2 x ^^^ rotr 13 x ^^^ rotr 22 x

/-- SHA-256 `Σ₁`. -/
def bigSigma1 (x : Nat) : Nat := rotr 6 x ^^^ rotr 11 x ^^^ rotr 25 x

/-- SHA-256 `σ₀`. -/
def smallSigma0 (x : Nat) : Nat := rotr 7 x ^^^ rotr 18 x ^^^ (x >>> 3)

/-- SHA-256 `σ₁`. -/
def smallSigma1 (x : Nat) : Nat := rotr 17 x ^^^ rotr 19 x ^^^ (x >>> 10)

/-- The 64 SHA-256 round constants `K`, in decimal (FIPS 180-4 section
4.2.2; `K[0] = 1116352408` is `0x428a2f98` and so on, checked end to end
by the `"abc"` test vector below). -/
def K256 : List Nat :=
  [1116352408, 1899447441, 3049323471, 3921009573, 961987163, 1508970993,
   2453635748, 2870763221, 3624381080, 310598401, 607225278, 1426881987,
   1925078388, 2162078206, 2614888103, 3248222580, 3835390401, 4022224774,
   264347078, 604807628, 770255983, 1249150122, 1555081692, 1996064986,
   2554220882, 2821834349, 2952996808, 3210313671, 3336571891, 3584528711,
   113926993, 338241895, 666307205, 773529912, 1294757372, 1396182291,
   1695183700, 1986661051, 2177026350, 2456956037, 2730485921, 2820302411,
   3259730800, 3345764771, 3516065817, 3600352804, 4094571909, 275423344,
   430227734, 506948616, 659060556, 883997877, 958139571, 1322822218,
   1537002063, 1747873779, 1955562222, 2024104815, 2227730452, 2361852424,
   2428436474, 2756734187, 3204031479, 3329325298]

/-- The eight 32-bit words of SHA-256 working state. -/
structure Sha256State where
  a : Nat
  b : Nat
  c : Nat
  d : Nat
  e : Nat
  f : Nat
  g : Nat
  h : Nat
  deriving Repr, DecidableEq

/-- SHA-256 initial hash value `H⁽⁰⁾`, in decimal (`1779033703` is
`0x6a09e667` and so on). -/
def initState : Sha256State :=
  ⟨1779033703, 3144134277, 1013904242, 2773480762,
   1359893119, 2600822924, 528734635, 1541459225⟩

/-- Big-endian bytes of `v`, exactly `n` of them (most significant first). -/
def beBytes : Nat → Nat → List Nat
  | 0, _ => []
  | n + 1, v => beBytes n (v / 256) ++ [v % 256]

/-- Group bytes into big-endian 32-bit words (four bytes per word). -/
def toWords : List Nat → List Nat
  | b0 :: b1 :: b2 :: b3 :: rest => (((b0 * 256 + b1) * 256 + b2) * 256 + b3) :: toWords rest
  | _ => []

/-- Append the next word of the SHA-256 message schedule. -/
def scheduleStep (ws : List Nat) : List Nat :=
  let n := ws.length
  ws ++ [w32 (smallSigma1 (ws.getD (n - 2) 0) + ws.getD (n - 7) 0 +
              smallSigma0 (ws.getD (n - 15) 0) + ws.getD (n - 16) 0)]

/-- Extend a 16-word block by `k` schedule words (`k = 48` gives all of `W`). -/
def schedule (ws : List Nat) : Nat → List Nat
  | 0 => ws
  | k + 1 => scheduleStep (schedule ws k)

/-- One SHA-256 compression round; `kw` is `K[i] + W[i]` mod `2 ^ 32`. -/
def compressRound (st : Sha256State) (kw : Nat) : Sha256State :=
  let t1 := w32 (st.h + bigSigma1 st.e + chFun st.e st.f st.g + kw)
  let t2 := w32 (bigSigma0 st.a + majFun st.a st.b st.c)
  ⟨w32 (t1 + t2), st.a, st.b, st.c, w32 (st.d + t1), st.e, st.f, st.g⟩

/-- Compress one 64-byte block into the running hash state. -/
def compress (st : Sha256State) (block : List Nat) : Sha256State :=
  let ws := schedule (toWords block) 48
  let fin := (List.zipWith (fun k w => w32 (k + w)) K256 ws).foldl compressRound st
  ⟨w32 (st.a + fin.a), w32 (st.b + fin.b), w32 (st.c + fin.c), w32 (st.d + fin.d),
   w32 (st.e + fin.e), w32 (st.f + fin.f), w32 (st.g + fin.g), w32 (st.h + fin.h)⟩

/-- SHA-256 padding: `0x80`, zeros to 56 mod 64, then the bit length as 8 big-endian bytes. -/
def sha256Pad (msg : List Nat) : List Nat :=
  msg ++ 0x80 :: List.replicate ((55 + 64 - msg.length % 64) % 64) 0 ++ beBytes 8 (8 * msg.length)

/-- Fold the compression function over successive 64-byte blocks; the
`fuel` argument only bounds the recursion depth (each step consumes at
least one byte, so `msg.length` fuel always suffices). -/
def sha256BlocksFuel : Nat → Sha256State → List Nat → Sha256State
  | 0, st, _ => st
  | _, st, [] => st
  | fuel + 1, st, b :: rest =>
      sha256BlocksFuel fuel (compress st ((b :: rest).take 64)) ((b :: rest).drop 64)

/-- Fold the compression function over successive 64-byte blocks. -/
def sha256Blocks (st : Sha256State) (msg : List Nat) : Sha256State :=
  sha256BlocksFuel msg.length st msg

/-- The eight words of the final state, in output order. -/
def digestWords (st : Sha256State) : List Nat :=
  [st.a, st.b, st.c, st.d, st.e, st.f, st.g, st.h]

/-- SHA-256 of a byte list: the 32 digest bytes.  This embeds the `sha2`
crate's `Sha256::digest` (and equally one `update` + `finalize_reset`
cycle of a fresh hasher, which computes the same function). -/
def sha256 (msg : List Nat) : List Nat :=
  ((digestWords (sha256Blocks initState (sha256Pad msg))).map (beBytes 4)).flatten

/-! ## Bytes, hex, and the input string -/

/-- UTF-8 bytes of an ASCII string (all strings in this program are ASCII),
embedding Rust's `str::as_bytes`. -/
def strBytes (s : String) : List Nat := s.data.map Char.toNat

/-- Lowercase hexadecimal digit for `n < 16`. -/
def hexDigit (n : Nat) : Char := if n < 10 then Char.ofNat (48 + n) else Char.ofNat (87 + n)

/-- The character list of `hex::encode`: two lowercase hex digits per byte. -/
def hexChars (bs : List Nat) : List Char :=
  (bs.map (fun b => [hexDigit (b / 16), hexDigit (b % 16)])).flatten

/-- `hex::encode`: lowercase hex string of a byte list. -/
def hexEncode (bs : List Nat) : String := String.mk (hexChars bs)

/-- The hashed input string: `format!("input-{}", timestamp)`. -/
def inputString (t : Nat) : String := "input-" ++ Nat.repr t

/-- Bytes of the hashed input string (`input.as_bytes()`). -/
def inputBytes (t : Nat) : List Nat := strBytes (inputString t)

/-! ## The hash chain of `hash_handler` -/

/-- The 32 final digest bytes for nanosecond reading `t`: the digest of
the input string is computed before the loop
(`Sha256::digest(input.as_bytes())`), then `for _ in 1..100` (the range
`[1, …, 99]`, i.e. 99 iterations) replaces `data` by its SHA-256 digest
(`hasher.update(data); data = hasher.finalize_reset()`). -/
def hashData (t : Nat) : List Nat :=
  (List.range' 1 99).foldl (fun data _ => sha256 data) (sha256 (inputBytes t))

/-- SHA-256 of `"abc"` matches the FIPS 180-4 test vector, validating the
embedding of the digest function. -/
theorem sha256_testvector_abc :
    hexEncode (sha256 (strBytes "abc")) =
      "ba7816bf8f01cfea414140de5dae2223b00361a396177a9cb410ff61f20015ad" := by
  decide

/-! ## JSON serialization (`serde_json::to_string` of the derived `Serialize`) -/

/-- A scalar JSON value, as much of JSON as `HashResponse` serialization needs. -/
inductive JsonValue where
  | str : String → JsonValue
  | num : Nat → JsonValue
  deriving Repr, DecidableEq

/-- `serde_json`'s escaping of one character inside a JSON string:
quote and backslash get a backslash; control characters use the short
escapes `\b \t \n \f \r` or `\u00XX`. -/
def escapeJsonChar (ch : Char) : List Char :=
  if ch = '"' then ['\\', '"']
  else if ch = '\\' then ['\\', '\\']
  else if 32 ≤ ch.toNat then [ch]
  else if ch.toNat = 8 then ['\\', 'b']
  else if ch.toNat = 9 then ['\\', 't']
  else if ch.toNat = 10 then ['\\', 'n']
  else if ch.toNat = 12 then ['\\', 'f']
  else if ch.toNat = 13 then ['\\', 'r']
  else ['\\', 'u', '0', '0', hexDigit (ch.toNat / 16), hexDigit (ch.toNat % 16)]

/-- Render a JSON string literal, quotes included. -/
def renderJsonString (s : String) : String :=
  "\"" ++ String.mk ((s.data.map escapeJsonChar).flatten) ++ "\""

/-- Render a scalar JSON value (`u128` serializes as a plain decimal number). -/
def renderJsonValue : JsonValue → String
  | .str s => renderJsonString s
  | .num n => Nat.repr n

/-- Render a JSON object from its ordered field list, `serde_json` compact
style: no whitespace, fields in declaration order. -/
def renderJsonObj (fields : List (String × JsonValue)) : String :=
  "\x7b" ++ String.intercalate ","
    (fields.map (fun kv => renderJsonString kv.1 ++ ":" ++ renderJsonValue kv.2)) ++ "\x7d"

/-! ## The response struct and the HTTP model -/

/-- The `HashResponse` struct: `hash: String`, `timestamp: u128`,
`source: &'static str`. -/
structure HashResponse where
  hash : String
  timestamp : Nat
  source : String
  deriving Repr, DecidableEq

/-- Declared bit width of the `timestamp` field of `HashResponse`
(`timestamp: u128` in the source, holding the `as_millis()` reading). -/
def hashResponseTimestampBits : Nat := 128

/-- The ordered field list produced by the derived `Serialize` for
`HashResponse`: struct fields in declaration order. -/
def hashResponseFields (r : HashResponse) : List (String × JsonValue) :=
  [("hash", .str r.hash), ("timestamp", .num r.timestamp), ("source", .str r.source)]

/-- `serde_json::to_string(&response)` for a `HashResponse` (total: the
derived serializer for these field types cannot error). -/
def serializeHashResponse (r : HashResponse) : String :=
  renderJsonObj (hashResponseFields r)

/-- An HTTP request as the dispatcher sees it: `handle_request` reads only
`req.uri().path()`; the method is carried to state that it is ignored. -/
structure HttpRequest where
  method : String
  path : String
  deriving Repr, DecidableEq

/-- An HTTP response at the level the handlers build it: status code, the
headers set explicitly on the builder, and the body bytes as a string. -/
structure HttpResponse where
  status : Nat
  headers : List (String × String)
  body : String
  deriving Repr, DecidableEq

/-- The two `SystemTime::now()` readings a `hash_handler` invocation makes,
as signed offsets from the Unix epoch (`SystemTime` can sit before the
epoch): `nanosReading` in nanoseconds at hash-input time, `millisReading`
in milliseconds at response-construction time. -/
structure Clock where
  nanosReading : Int
  millisReading : Int
  deriving Repr, DecidableEq

/-- `SystemTime::duration_since(UNIX_EPOCH)` on a reading `t` units from
the epoch: `Err` (here `none`) exactly when the reading is before the
epoch, otherwise the nonnegative duration in those units. -/
def durationSinceEpoch (t : Int) : Option Nat :=
  if t < 0 then none else some t.toNat

/-- The `HashResponse` value built for nanosecond reading `nanos` and
millisecond reading `millis`: hex of the chained digest, the millisecond
reading, and the fixed label `"rust"`. -/
def responseRecord (nanos millis : Nat) : HashResponse :=
  ⟨hexEncode (hashData nanos), millis, "rust"⟩

/-- The HTTP response `hash_handler` builds: status 200, the one
explicitly set header, and the serialized JSON body. -/
def buildResponse (nanos millis : Nat) : HttpResponse :=
  ⟨200, [("Content-Type", "application/json")], serializeHashResponse (responseRecord nanos millis)⟩

/-- `hash_handler`: unwrap the nanosecond clock reading, hash, unwrap the
millisecond reading, build the response.  `none` models a panic of one of
the `unwrap` calls (only the two `duration_since` unwraps can fail; JSON
serialization and the response builder are total for this data). -/
def hash_handler (c : Clock) : Option HttpResponse :=
  match durationSinceEpoch c.nanosReading with
  | none => none
  | some nanos =>
    match durationSinceEpoch c.millisReading with
    | none => none
    | some millis => some (buildResponse nanos millis)

/-- `health_handler`: status 200, no explicit headers, body `"OK"`. -/
def health_handler : HttpResponse := ⟨200, [], "OK"⟩

/-- `not_found`: status 404, no explicit headers, body `"Not Found"`. -/
def not_found : HttpResponse := ⟨404, [], "Not Found"⟩

/-- `handle_request`: dispatch on `req.uri().path()` alone; the Rust
`match` on a `&str` is sequential equality comparison against the
literal patterns.  `none` propagates a handler panic; the `Result` error
type is `Infallible`, so there is no error value to model. -/
def handle_request (c : Clock) (req : HttpRequest) : Option HttpResponse :=
  match req.path with
  | "/hash" => hash_handler c
  | "/health" => some health_handler
  | _ => some not_found

/-! ## Helper lemmas -/

/-- A clock reading at or after the epoch unwraps to its `toNat`. -/
lemma durationSinceEpoch_nonneg {t : Int} (ht : 0 ≤ t) :
    durationSinceEpoch t = some t.toNat := by
  simp [durationSinceEpoch, not_lt.mpr ht]

/-- Folding `sha256` over any list applies it once per element. -/
lemma foldl_sha256 (l : List Nat) (d : List Nat) :
    l.foldl (fun data _ => sha256 data) d = sha256^[l.length] d := by
  induction l generalizing d with
  | nil => rfl
  | cons x xs ih =>
      simp only [List.foldl_cons, List.length_cons, ih,
        Function.iterate_succ_apply]

/-- The loop of `hash_handler` computes 99 further digests after the
initial one: 100 chained SHA-256 applications in total. -/
lemma hashData_eq (t : Nat) : hashData t = sha256^[100] (inputBytes t) := by
  unfold hashData
  rw [foldl_sha256]
  rw [show (List.range' 1 99).length = 99 from by simp]
  exact (Function.iterate_succ_apply sha256 99 (inputBytes t)).symm

/-- `beBytes n v` has exactly `n` bytes. -/
lemma beBytes_length (n v : Nat) : (beBytes n v).length = n := by
  induction n generalizing v with
  | zero => rfl
  | succ n ih => simp [beBytes, ih]

/-- Every entry of `beBytes n v` is a byte. -/
lemma beBytes_lt {n v : Nat} : ∀ b ∈ beBytes n v, b < 256 := by
  induction n generalizing v with
  | zero => simp [beBytes]
  | succ n ih =>
      intro b hb
      simp only [beBytes, List.mem_append, List.mem_singleton] at hb
      rcases hb with hb | hb
      · exact ih b hb
      · subst hb; exact Nat.mod_lt _ (by omega)

/-- A SHA-256 digest is 32 bytes long. -/
lemma sha256_length (msg : List Nat) : (sha256 msg).length = 32 := by
  simp [sha256, digestWords, List.length_flatten, beBytes_length]

/-- Every entry of a SHA-256 digest is a byte. -/
lemma sha256_mem_lt (msg : List Nat) : ∀ b ∈ sha256 msg, b < 256 := by
  intro b hb
  simp only [sha256, List.mem_flatten, List.mem_map] at hb
  obtain ⟨l, ⟨w, _, rfl⟩, hbl⟩ := hb
  exact beBytes_lt b hbl

/-- The chained digest is 32 bytes long. -/
lemma hashData_length (t : Nat) : (hashData t).length = 32 := by
  rw [hashData_eq, Function.iterate_succ_apply' sha256 99 (inputBytes t)]
  exact sha256_length _

/-- Every entry of the chained digest is a byte. -/
lemma hashData_mem_lt (t : Nat) : ∀ b ∈ hashData t, b < 256 := by
  rw [hashData_eq, Function.iterate_succ_apply' sha256 99 (inputBytes t)]
  exact sha256_mem_lt _

/-- Hex encoding yields two characters per byte. -/
lemma hexChars_length (bs : List Nat) : (hexChars bs).length = 2 * bs.length := by
  induction bs with
  | nil => rfl
  | cons b bs ih =>
      simp only [hexChars, List.map_cons, List.flatten_cons, List.length_append,
        List.length_cons, List.length_nil] at *
      omega

/-- The length of the hex-encoded string is twice the byte count. -/
lemma hexEncode_length (bs : List Nat) : (hexEncode bs).length = 2 * bs.length :=
  hexChars_length bs

/-- Hex digits of values below 16 are lowercase hexadecimal characters. -/
lemma hexDigit_mem : ∀ n < 16, hexDigit n ∈ ("0123456789abcdef").data := by
  decide

/-- Every character hex-encoding a byte list is a lowercase hex character. -/
lemma hexChars_mem (bs : List Nat) (hbs : ∀ b ∈ bs, b < 256) :
    ∀ ch ∈ hexChars bs, ch ∈ ("0123456789abcdef").data := by
  intro ch hch
  simp only [hexChars, List.mem_flatten, List.mem_map] at hch
  obtain ⟨l, ⟨b, hb, rfl⟩, hchl⟩ := hch
  have hb256 : b < 256 := hbs b hb
  simp only [List.mem_cons, List.not_mem_nil, or_false] at hchl
  rcases hchl with rfl | rfl
  · exact hexDigit_mem _ (by omega)
  · exact hexDigit_mem _ (by omega)

/-- Dispatch characterized as ordered path comparison: the method plays
no role, and only the exact paths `/hash` and `/health` are special. -/
lemma handle_request_eq (c : Clock) (req : HttpRequest) :
    handle_request c req =
      if req.path = "/hash" then hash_handler c
      else if req.path = "/health" then some health_handler
      else some not_found := by
  unfold handle_request
  split
  next h => rw [if_pos h]
  next h => rw [if_neg (by rw [h]; decide), if_pos h]
  next h1 h2 => rw [if_neg h1, if_neg h2]

/-- With both clock readings at or after the epoch, `hash_handler`
returns the built response. -/
lemma hash_handler_some {c : Clock} (hn : 0 ≤ c.nanosReading) (hm : 0 ≤ c.millisReading) :
    hash_handler c = some (buildResponse c.nanosReading.toNat c.millisReading.toNat) := by
  simp [hash_handler, durationSinceEpoch_nonneg hn, durationSinceEpoch_nonneg hm]

/-! ## Claim theorems -/

/-- Claim C1: the hash computation digests the formatted input string
once before the loop and then re-hashes the raw digest bytes exactly 99
more times, each output feeding the next input — 100 chained digest
computations in total, for every timestamp value. -/
theorem spec2_C1 (t : Nat) :
    hashData t = sha256^[99] (sha256 (inputBytes t)) ∧
    hashData t = sha256^[100] (inputBytes t) := by
  refine ⟨?_, hashData_eq t⟩
  rw [hashData_eq t]
  exact Function.iterate_succ_apply sha256 99 (inputBytes t)

/-- Claim C2: dispatch is a pure function of the exact request path only —
`/hash` to the hash handler, `/health` to the health handler, anything
else to not-found — and the method has no effect (the right-hand side
does not mention `req.method`). -/
theorem spec2_C2 (c : Clock) (req : HttpRequest) :
    handle_request c req =
      if req.path = "/hash" then hash_handler c
      else if req.path = "/health" then some health_handler
      else some not_found :=
  handle_request_eq c req

/-- Claim C3: every response the hash handler produces has status 200,
carries `Content-Type: application/json`, and serializes a record with
exactly the keys `hash`, `timestamp`, `source` in that order, whose
`source` is the fixed label `"rust"`. -/
theorem spec2_C3 (c : Clock) (resp : HttpResponse) (h : hash_handler c = some resp) :
    resp.status = 200 ∧ ("Content-Type", "application/json") ∈ resp.headers ∧
    ∃ r : HashResponse, resp.body = renderJsonObj (hashResponseFields r) ∧
      (hashResponseFields r).map Prod.fst = ["hash", "timestamp", "source"] ∧
      r.source = "rust" := by
  unfold hash_handler at h
  rcases hn : durationSinceEpoch c.nanosReading with _ | nanos <;> rw [hn] at h
  · simp at h
  rcases hm : durationSinceEpoch c.millisReading with _ | millis <;> rw [hm] at h
  · simp at h
  simp only [Option.some.injEq] at h
  subst h
  exact ⟨rfl, by simp [buildResponse], responseRecord nanos millis, rfl, rfl, rfl⟩

/-- Witness for C3 at the concrete clock `⟨0, 0⟩`. -/
theorem spec2_C3_witness :
    hash_handler ⟨0, 0⟩ = some (buildResponse 0 0) ∧
    ((buildResponse 0 0).status = 200 ∧
      ("Content-Type", "application/json") ∈ (buildResponse 0 0).headers ∧
      ∃ r : HashResponse, (buildResponse 0 0).body = renderJsonObj (hashResponseFields r) ∧
        (hashResponseFields r).map Prod.fst = ["hash", "timestamp", "source"] ∧
        r.source = "rust") :=
  ⟨rfl, spec2_C3 ⟨0, 0⟩ (buildResponse 0 0) rfl⟩

/-- Claim C4: the `hash` field is the hex encoding of the final 32-byte
digest — a 64-character string of lowercase hexadecimal characters. -/
theorem spec2_C4 (n m : Nat) :
    (responseRecord n m).hash = hexEncode (hashData n) ∧
    (responseRecord n m).hash.length = 64 ∧
    ∀ ch ∈ (responseRecord n m).hash.data, ch ∈ ("0123456789abcdef").data := by
  refine ⟨rfl, ?_, ?_⟩
  · show (hexEncode (hashData n)).length = 64
    rw [hexEncode_length, hashData_length]
  · show ∀ ch ∈ hexChars (hashData n), ch ∈ ("0123456789abcdef").data
    exact hexChars_mem _ (hashData_mem_lt n)

/-- Counterexample to C5 as stated: the `timestamp` field of
`HashResponse` is declared `u128`, not `u64`. -/
theorem spec2_C5_counterexample : hashResponseTimestampBits ≠ 64 := by
  decide

/-- Claim C5 (amended): the `timestamp` field is the millisecond reading
taken at response-construction time — a clock reading separate from the
nanosecond seed — and the field is a `u128` (not `u64` as the interface
table writes). -/
theorem spec2_C5 (c : Clock) (n m : Nat)
    (hn : durationSinceEpoch c.nanosReading = some n)
    (hm : durationSinceEpoch c.millisReading = some m) :
    hash_handler c = some (buildResponse n m) ∧
    (responseRecord n m).timestamp = m ∧
    hashResponseTimestampBits = 128 := by
  refine ⟨?_, rfl, rfl⟩
  simp [hash_handler, hn, hm]

/-- Witness for C5 at the concrete clock `⟨5, 7⟩`. -/
theorem spec2_C5_witness :
    durationSinceEpoch (Clock.mk 5 7).nanosReading = some 5 ∧
    durationSinceEpoch (Clock.mk 5 7).millisReading = some 7 ∧
    (hash_handler ⟨5, 7⟩ = some (buildResponse 5 7) ∧
      (responseRecord 5 7).timestamp = 7 ∧ hashResponseTimestampBits = 128) :=
  ⟨rfl, rfl, spec2_C5 ⟨5, 7⟩ 5 7 rfl rfl⟩

/-- Counterexample to C6 as stated: for a clock reading one nanosecond
before the Unix epoch the `duration_since` error branch is reached and
its `unwrap` panics, so the handler does fail for that clock reading. -/
theorem spec2_C6_counterexample :
    hash_handler ⟨-1, 0⟩ = none ∧ handle_request ⟨-1, 0⟩ ⟨"GET", "/hash"⟩ = none :=
  ⟨rfl, rfl⟩

/-- Claim C6 (amended): for every clock reading at or after the Unix
epoch the hash handler cannot fail — both clock unwraps succeed, JSON
serialization and response construction are total — and `handle_request`
returns a response (`Ok`, the error type being `Infallible`) for every
request. -/
theorem spec2_C6 (c : Clock) (hn : 0 ≤ c.nanosReading) (hm : 0 ≤ c.millisReading) :
    (∃ resp, hash_handler c = some resp) ∧
    ∀ req : HttpRequest, ∃ resp, handle_request c req = some resp := by
  refine ⟨⟨_, hash_handler_some hn hm⟩, ?_⟩
  intro req
  rw [handle_request_eq]
  by_cases h1 : req.path = "/hash"
  · rw [if_pos h1]
    exact ⟨_, hash_handler_some hn hm⟩
  · rw [if_neg h1]
    by_cases h2 : req.path = "/health"
    · rw [if_pos h2]
      exact ⟨_, rfl⟩
    · rw [if_neg h2]
      exact ⟨_, rfl⟩

/-- Witness for C6 at the concrete clock `⟨0, 0⟩` and a `/hash` request. -/
theorem spec2_C6_witness :
    0 ≤ (Clock.mk 0 0).nanosReading ∧ 0 ≤ (Clock.mk 0 0).millisReading ∧
    ∃ resp, handle_request ⟨0, 0⟩ ⟨"GET", "/hash"⟩ = some resp :=
  ⟨by decide, by decide,
    (spec2_C6 ⟨0, 0⟩ (by decide) (by decide)).2 ⟨"GET", "/hash"⟩⟩

/-- Claim C7: every request whose path is `/health` gets exactly status
200 with body `"OK"`. -/
theorem spec2_C7 (c : Clock) (req : HttpRequest) (h : req.path = "/health") :
    handle_request c req = some health_handler ∧
    health_handler.status = 200 ∧ health_handler.body = "OK" := by
  refine ⟨?_, rfl, rfl⟩
  rw [handle_request_eq, h]
  rfl

/-- Witness for C7 at a concrete `/health` request. -/
theorem spec2_C7_witness :
    (HttpRequest.mk "GET" "/health").path = "/health" ∧
    (handle_request ⟨0, 0⟩ ⟨"GET", "/health"⟩ = some health_handler ∧
      health_handler.status = 200 ∧ health_handler.body = "OK") :=
  ⟨rfl, spec2_C7 ⟨0, 0⟩ ⟨"GET", "/health"⟩ rfl⟩

/-- Claim C8: every request whose path is neither `/hash` nor `/health`
gets status 404 with body `"Not Found"`. -/
theorem spec2_C8 (c : Clock) (req : HttpRequest)
    (h1 : req.path ≠ "/hash") (h2 : req.path ≠ "/health") :
    handle_request c req = some not_found ∧
    not_found.status = 404 ∧ not_found.body = "Not Found" := by
  refine ⟨?_, rfl, rfl⟩
  rw [handle_request_eq, if_neg h1, if_neg h2]

/-- Witness for C8 at a concrete request for an unknown path. -/
theorem spec2_C8_witness :
    (HttpRequest.mk "GET" "/nope").path ≠ "/hash" ∧
    (HttpRequest.mk "GET" "/nope").path ≠ "/health" ∧
    (handle_request ⟨0, 0⟩ ⟨"GET", "/nope"⟩ = some not_found ∧
      not_found.status = 404 ∧ not_found.body = "Not Found") :=
  ⟨by decide, by decide, spec2_C8 ⟨0, 0⟩ ⟨"GET", "/nope"⟩ (by decide) (by decide)⟩

/-- Claim C10: the `hash` field is a deterministic function of the
nanosecond clock reading alone — two invocations with the same
nanosecond reading produce the identical hash string, whatever the
response-time millisecond readings, namely the hex of the 100-fold
iterated digest of the input bytes. -/
theorem spec2_C10 (n m1 m2 : Nat) :
    (responseRecord n m1).hash = (responseRecord n m2).hash ∧
    (responseRecord n m1).hash = hexEncode (sha256^[100] (inputBytes n)) := by
  refine ⟨rfl, ?_⟩
  show hexEncode (hashData n) = _
  rw [hashData_eq]

end RustServer
